import Mathlib

/-!
Shallow embedding of the distance-vector routing daemon in `src/routing.py`.

The Python module keeps three global tables:
  routing_table    : {destination IP : {interface name : distance}}
  forwarding_table : {destination IP : egress interface name}
  local_interfaces : {interface name : local IP address}
We model the dictionaries as association lists over `String` keys, with
Python dict assignment `d[k] = v` as `setAL` (replace-or-append) and
`d.get(k)` as `lookupAL`. Distances travel on the wire as an unsigned
32-bit field and are handled as Python ints, so we model them as `Nat`.
-/

namespace DVRouting

/-- One destination's paths: Python `{interface name : distance}`. -/
abbrev RouteEntry := List (String × Nat)

/-- The three global tables of `routing.py` gathered into one state. -/
structure RouterState where
  routing_table : List (String × RouteEntry)
  forwarding_table : List (String × String)
  local_interfaces : List (String × String)
  deriving Repr, DecidableEq

/-- Python `d.get(k)` on an association list. -/
def lookupAL (k : String) : List (String × α) → Option α
  | [] => none
  | (k₁, v) :: t => if k = k₁ then some v else lookupAL k t

/-- Python `d[k] = v`: replace the binding for `k`, or append it. -/
def setAL (k : String) (v : α) : List (String × α) → List (String × α)
  | [] => [(k, v)]
  | (k₁, v₁) :: t => if k = k₁ then (k, v) :: t else (k₁, v₁) :: setAL k v t

/-- Python `min(current_paths.values())`.  Only ever reached on a nonempty
dict in the source (the `or` in line 77 short-circuits when the destination
is unknown); the `[]` case is an arbitrary default. -/
def minValues : RouteEntry → Nat
  | [] => 0
  | (_, v) :: t => t.foldl (fun m p => Nat.min m p.2) v

/-- `update_routing_table` (src/routing.py lines 66-88), the merge of one
received advertisement `(dest_ip, distance, recv_iface)`.  Returns the new
state together with the `updated` boolean the Python function returns.

Python:
  new_distance = distance + 1
  current_paths = routing_table.get(dest_ip, \x7b\x7d)
  if recv_iface in current_paths and current_paths[recv_iface] <= new_distance:
      return False
  if dest_ip not in routing_table or new_distance < min(current_paths.values()):
      routing_table[dest_ip] = \x7brecv_iface: new_distance\x7d
      forwarding_table[dest_ip] = recv_iface
      updated = True
  return updated
-/
def update_routing_table (s : RouterState) (dest_ip : String) (distance : Nat)
    (recv_iface : String) : RouterState × Bool :=
  let new_distance := distance + 1
  let current_paths := (lookupAL dest_ip s.routing_table).getD []
  let suppressed : Bool :=
    match lookupAL recv_iface current_paths with
    | some d => decide (d ≤ new_distance)
    | none => false
  if suppressed then
    (s, false)
  else if (lookupAL dest_ip s.routing_table).isNone
      || new_distance < minValues current_paths then
    ({ s with
        routing_table := setAL dest_ip [(recv_iface, new_distance)] s.routing_table,
        forwarding_table := setAL dest_ip recv_iface s.forwarding_table },
      true)
  else
    (s, false)

/-- One iteration of the `initialize_routing` loop body for the local
interface `p = (name, ip)`: skipped when the interface has no IP
(`if iface.ip:` — the empty string is falsy in Python). -/
def initStep (s : RouterState) (p : String × String) : RouterState :=
  if p.2 = "" then s
  else
    { routing_table := setAL p.2 [(p.1, 0)] s.routing_table,
      forwarding_table := setAL p.2 p.1 s.forwarding_table,
      local_interfaces := setAL p.1 p.2 s.local_interfaces }

/-- `initialize_routing` (src/routing.py lines 31-45): seed one distance-0
route per local interface that has an IP.  `ifaces` is the iteration order
of `conf.ifaces`, as (interface name, IP address) pairs. -/
def initialize_routing (ifaces : List (String × String)) : RouterState :=
  ifaces.foldl initStep ⟨[], [], []⟩

/-- A data packet as `forward_packet` sees it: the IP destination field
(`none` models the cleared value the code writes before re-sending) and the
rest of the frame, opaque to the routing code. -/
structure IPPacket where
  dst : Option String
  payload : Nat
  deriving Repr, DecidableEq

/-- The merge condition the code never tests directly but which its early
return realises: interface `r` already records a distance for `d` that is
at most the candidate distance `dist + 1` (src/routing.py line 73). -/
def Suppresses (s : RouterState) (d : String) (dist : Nat) (r : String) : Prop :=
  ∃ dr, lookupAL r ((lookupAL d s.routing_table).getD []) = some dr ∧ dr ≤ dist + 1

/-- Outcome of one `forward_packet` call, distinguished by what the Python
function does: return silently for local delivery, `sendp` (successful or
raising) with the mutated packet, or one of the printed error branches. -/
inductive ForwardResult where
  | localDelivery
  | sent (out_iface : String) (transmitted : IPPacket)
  | sendError (out_iface : String) (transmitted : IPPacket)
  | noIface
  | noRoute
  | nonIP
  deriving Repr, DecidableEq

/-- `forward_packet` (src/routing.py lines 99-121).  `pkt = none` models a
non-IP frame, `send_ok` the outcome of the external `sendp` call.  The
second component is the table state after the call: the Python function
never writes the global tables, so it is always `s`.

Python truthiness is modelled exactly: `if route:` is false for a missing
key and for an empty dict, `if out_iface:` is false for a missing key and
for an empty string. -/
def forward_packet (s : RouterState) (pkt : Option IPPacket) (send_ok : Bool) :
    ForwardResult × RouterState :=
  match pkt with
  | none => (.nonIP, s)
  | some p =>
    match p.dst with
    | none => (.noRoute, s)
    | some dest_ip =>
      if s.local_interfaces.any (fun q => q.2 == dest_ip) then
        (.localDelivery, s)
      else
        match lookupAL dest_ip s.routing_table with
        | some route =>
          if route.isEmpty then (.noRoute, s)
          else
            match lookupAL dest_ip s.forwarding_table with
            | some out_iface =>
              if out_iface = "" then (.noIface, s)
              else
                let transmitted : IPPacket := { p with dst := none }
                if send_ok then (.sent out_iface transmitted, s)
                else (.sendError out_iface transmitted, s)
            | none => (.noIface, s)
        | none => (.noRoute, s)

/-- Fold a sequence of received advertisements through the merge function:
the state after `handle_route_advertisement` has processed each of them. -/
def run (s : RouterState) (adverts : List (String × Nat × String)) : RouterState :=
  adverts.foldl (fun st a => (update_routing_table st a.1 a.2.1 a.2.2).1) s

/-- The spec's selected interface for a destination: the interface achieving
the minimum recorded distance, earliest-recorded wins on ties. -/
def selectedInterface (entry : RouteEntry) : Option String :=
  (entry.find? (fun p => p.2 == minValues entry)).map Prod.fst

/-- The infinity sentinel of the advertisement protocol (the `16` hard-coded
in `advertise_routes`, src/routing.py line 56). -/
def infinitySentinel : Nat := 16

/-! ### Association-list lemmas -/

theorem lookupAL_setAL (k₁ k : String) (v : α) (l : List (String × α)) :
    lookupAL k₁ (setAL k v l) = if k₁ = k then some v else lookupAL k₁ l := by
  induction l with
  | nil => simp [setAL, lookupAL]
  | cons hd t ih =>
    obtain ⟨k₂, v₂⟩ := hd
    by_cases hk : k = k₂
    · subst hk
      by_cases h₁ : k₁ = k <;> simp [setAL, lookupAL, h₁]
    · by_cases h₁ : k₁ = k₂
      · subst h₁
        simp [setAL, lookupAL, hk, Ne.symm hk]
      · simp [setAL, lookupAL, hk, h₁, ih]

theorem lookupAL_setAL_self (k : String) (v : α) (l : List (String × α)) :
    lookupAL k (setAL k v l) = some v := by
  simp [lookupAL_setAL]

theorem lookupAL_setAL_ne (k₁ k : String) (v : α) (l : List (String × α))
    (h : k₁ ≠ k) : lookupAL k₁ (setAL k v l) = lookupAL k₁ l := by
  simp [lookupAL_setAL, h]

/-! ### Branch characterisations of the merge function -/

theorem update_suppressed_eq (s : RouterState) (d : String) (dist : Nat) (r : String)
    (dr : Nat) (h : lookupAL r ((lookupAL d s.routing_table).getD []) = some dr)
    (hle : dr ≤ dist + 1) :
    update_routing_table s d dist r = (s, false) := by
  simp [update_routing_table, h, hle]

theorem update_improve_eq (s : RouterState) (d : String) (dist : Nat) (r : String)
    (hsup : ∀ dr, lookupAL r ((lookupAL d s.routing_table).getD []) = some dr →
      dist + 1 < dr)
    (hcond : lookupAL d s.routing_table = none
        ∨ dist + 1 < minValues ((lookupAL d s.routing_table).getD [])) :
    update_routing_table s d dist r =
      ({ s with routing_table := setAL d [(r, dist + 1)] s.routing_table,
                forwarding_table := setAL d r s.forwarding_table }, true) := by
  rcases hcond with hc | hc
  · have hcur : (lookupAL d s.routing_table).getD [] = [] := by rw [hc]; rfl
    simp [update_routing_table, hc, hcur, lookupAL]
  · rcases hl : lookupAL r ((lookupAL d s.routing_table).getD []) with _ | dr
    · simp [update_routing_table, hl, hc]
    · have hlt := hsup dr hl
      have hnle : ¬ dr ≤ dist + 1 := Nat.not_le.mpr hlt
      simp [update_routing_table, hl, hc, hnle]

theorem update_noimprove_eq (s : RouterState) (d : String) (dist : Nat) (r : String)
    (e : RouteEntry)
    (hsup : ∀ dr, lookupAL r ((lookupAL d s.routing_table).getD []) = some dr →
      dist + 1 < dr)
    (he : lookupAL d s.routing_table = some e)
    (hge : ¬ dist + 1 < minValues e) :
    update_routing_table s d dist r = (s, false) := by
  rcases hl : lookupAL r ((lookupAL d s.routing_table).getD []) with _ | dr
  · simp [update_routing_table, hl, he, hge]
  · have hlt := hsup dr hl
    have hnle : ¬ dr ≤ dist + 1 := Nat.not_le.mpr hlt
    simp [update_routing_table, hl, he, hge, hnle]

theorem update_fst_cases (s : RouterState) (d : String) (dist : Nat) (r : String) :
    (update_routing_table s d dist r).1 = s ∨
    (update_routing_table s d dist r).1 =
      { s with routing_table := setAL d [(r, dist + 1)] s.routing_table,
               forwarding_table := setAL d r s.forwarding_table } := by
  unfold update_routing_table
  dsimp only
  split
  · exact Or.inl rfl
  · split
    · exact Or.inr rfl
    · exact Or.inl rfl

theorem update_snd_true (s : RouterState) (d : String) (dist : Nat) (r : String)
    (s₁ : RouterState) (h : update_routing_table s d dist r = (s₁, true)) :
    s₁ = { s with routing_table := setAL d [(r, dist + 1)] s.routing_table,
                  forwarding_table := setAL d r s.forwarding_table } := by
  unfold update_routing_table at h
  dsimp only at h
  split at h
  · exact absurd (congrArg Prod.snd h) (by simp)
  · split at h
    · exact (congrArg Prod.fst h).symm
    · exact absurd (congrArg Prod.snd h) (by simp)

/-! ### The table invariant maintained by the code

Every destination the routing table knows is mapped to a singleton
`(interface, distance)` entry whose interface is also the destination's
forwarding-table entry: `initialize_routing` writes such pairs, and the
merge always replaces the whole entry and the forwarding entry together. -/

def GoodTables (s : RouterState) : Prop :=
  ∀ d e, lookupAL d s.routing_table = some e →
    ∃ i n, e = [(i, n)] ∧ lookupAL d s.forwarding_table = some i

theorem goodTables_empty : GoodTables ⟨[], [], []⟩ := by
  intro d e h
  simp [lookupAL] at h

theorem goodTables_initStep (s : RouterState) (p : String × String)
    (h : GoodTables s) : GoodTables (initStep s p) := by
  unfold initStep
  split
  · exact h
  · intro d e he
    rw [lookupAL_setAL] at he
    by_cases hd : d = p.2
    · simp [hd] at he
      exact ⟨p.1, 0, he.symm, by simp [hd, lookupAL_setAL_self]⟩
    · simp [hd] at he
      obtain ⟨i, n, hi, hf⟩ := h d e he
      exact ⟨i, n, hi, by simpa [lookupAL_setAL, hd] using hf⟩

theorem goodTables_init (ifaces : List (String × String)) :
    GoodTables (initialize_routing ifaces) := by
  unfold initialize_routing
  have aux : ∀ (l : List (String × String)) (s : RouterState),
      GoodTables s → GoodTables (l.foldl initStep s) := by
    intro l
    induction l with
    | nil => exact fun s h => h
    | cons p t ih => exact fun s h => ih (initStep s p) (goodTables_initStep s p h)
  exact aux ifaces ⟨[], [], []⟩ goodTables_empty

theorem goodTables_update (s : RouterState) (d : String) (dist : Nat) (r : String)
    (h : GoodTables s) : GoodTables (update_routing_table s d dist r).1 := by
  rcases update_fst_cases s d dist r with hc | hc
  · rw [hc]; exact h
  · rw [hc]
    intro d₁ e he
    rw [lookupAL_setAL] at he
    by_cases hd : d₁ = d
    · simp [hd] at he
      exact ⟨r, dist + 1, he.symm, by simp [hd, lookupAL_setAL_self]⟩
    · simp [hd] at he
      obtain ⟨i, n, hi, hf⟩ := h d₁ e he
      exact ⟨i, n, hi, by simpa [lookupAL_setAL, hd] using hf⟩

theorem goodTables_run (s : RouterState) (adverts : List (String × Nat × String))
    (h : GoodTables s) : GoodTables (run s adverts) := by
  induction adverts generalizing s with
  | nil => exact h
  | cons a t ih =>
    exact ih (update_routing_table s a.1 a.2.1 a.2.2).1
      (goodTables_update s a.1 a.2.1 a.2.2 h)

theorem selectedInterface_singleton (i : String) (n : Nat) :
    selectedInterface [(i, n)] = some i := by
  simp [selectedInterface, minValues, List.find?]

/-! ### Preservation of distance-0 local routes -/

theorem local_zero_update (s : RouterState) (ip i d r : String) (dist : Nat)
    (h : lookupAL ip s.routing_table = some [(i, 0)]) :
    lookupAL ip (update_routing_table s d dist r).1.routing_table = some [(i, 0)] ∧
    lookupAL ip (update_routing_table s d dist r).1.forwarding_table
      = lookupAL ip s.forwarding_table := by
  by_cases hd : d = ip
  · subst hd
    have hcur : (lookupAL d s.routing_table).getD [] = [(i, 0)] := by rw [h]; rfl
    have hun : update_routing_table s d dist r = (s, false) := by
      by_cases hr : r = i
      · refine update_suppressed_eq s d dist r 0 ?_ (Nat.zero_le _)
        rw [hcur]
        simp [lookupAL, hr]
      · refine update_noimprove_eq s d dist r [(i, 0)] ?_ h (by simp [minValues])
        rw [hcur]
        intro dr hdr
        simp [lookupAL, hr] at hdr
    rw [hun]
    exact ⟨h, rfl⟩
  · rcases update_fst_cases s d dist r with hc | hc
    · rw [hc]; exact ⟨h, rfl⟩
    · rw [hc]
      constructor
      · simpa [lookupAL_setAL, Ne.symm hd] using h
      · simp [lookupAL_setAL, Ne.symm hd]

theorem local_zero_run (s : RouterState) (ip i : String)
    (adverts : List (String × Nat × String))
    (h : lookupAL ip s.routing_table = some [(i, 0)]) :
    lookupAL ip (run s adverts).routing_table = some [(i, 0)] ∧
    lookupAL ip (run s adverts).forwarding_table = lookupAL ip s.forwarding_table := by
  induction adverts generalizing s with
  | nil => exact ⟨h, rfl⟩
  | cons a t ih =>
    have step := local_zero_update s ip i a.1 a.2.2 a.2.1 h
    have tail := ih (update_routing_table s a.1 a.2.1 a.2.2).1 step.1
    exact ⟨tail.1, tail.2.trans step.2⟩

/-! ### The claims -/

/-- Claim C1 (refuted by the code, supporting evaluation): `10.0.0.5` is known
with selected interface `eth1` (distance 3, learned from an advertisement at
distance 2); a poison advertisement (`infinitySentinel`) for it arriving on
`eth1` is swallowed by the early return of line 73 — `update_routing_table`
returns `false` and leaves both tables unchanged, and a subsequent forwarding
lookup still transmits via `eth1` instead of reporting no route.  The claim
demands invalidation, `changed = true`, and a NoRoute outcome. -/
theorem c1_poison_on_selected_interface_is_ignored :
    lookupAL "10.0.0.5" (run (initialize_routing []) [("10.0.0.5", 2, "eth1")]).forwarding_table
      = some "eth1" ∧
    update_routing_table (run (initialize_routing []) [("10.0.0.5", 2, "eth1")])
        "10.0.0.5" infinitySentinel "eth1"
      = (run (initialize_routing []) [("10.0.0.5", 2, "eth1")], false) ∧
    (forward_packet (run (initialize_routing []) [("10.0.0.5", 2, "eth1")])
        (some { dst := some "10.0.0.5", payload := 3 }) true).1
      = ForwardResult.sent "eth1" { dst := none, payload := 3 } :=
  ⟨rfl, rfl, rfl⟩

/-- Claim C2 (refuted by the code, supporting evaluation): a poison
advertisement (`infinitySentinel`) for the previously unknown destination
`10.9.9.9` is merged by `update_routing_table` as if it were a real route:
it creates the routing-table entry `(eth0, 17)` and the forwarding-table
entry `eth0`, and returns `changed = true`.  The claim demands that an
advertisement at or beyond the sentinel never create an entry. -/
theorem c2_poison_creates_route_for_unknown_destination :
    update_routing_table (initialize_routing []) "10.9.9.9" infinitySentinel "eth0"
      = (⟨[("10.9.9.9", [("eth0", infinitySentinel + 1)])], [("10.9.9.9", "eth0")], []⟩,
          true) :=
  rfl

/-- Claim C7: local distance-0 routes seeded by `initialize_routing` survive
any sequence of received advertisements unchanged, and the forwarding entry
for the local address never changes either: a merge on the local address is
either suppressed (same interface: `0 ≤ candidate`) or fails the improvement
test (`candidate < 0` is impossible), and merges on other destinations do
not touch its key. -/
theorem c7_local_routes_immutable (ifaces : List (String × String))
    (adverts : List (String × Nat × String)) (name ip : String)
    (h : lookupAL ip (initialize_routing ifaces).routing_table = some [(name, 0)]) :
    lookupAL ip (run (initialize_routing ifaces) adverts).routing_table
      = some [(name, 0)] ∧
    lookupAL ip (run (initialize_routing ifaces) adverts).forwarding_table
      = lookupAL ip (initialize_routing ifaces).forwarding_table :=
  local_zero_run (initialize_routing ifaces) ip name adverts h

/-- Witness for C7: router `r-eth1`/`10.1.1.254` keeps its own distance-0
route and forwarding entry across a remote advertisement and an advertisement
for its own address. -/
theorem c7_local_routes_immutable_witness :
    lookupAL "10.1.1.254" (run (initialize_routing [("r-eth1", "10.1.1.254")])
        [("10.0.0.5", 2, "eth0"), ("10.1.1.254", 3, "r-eth9")]).routing_table
      = some [("r-eth1", 0)] ∧
    lookupAL "10.1.1.254" (run (initialize_routing [("r-eth1", "10.1.1.254")])
        [("10.0.0.5", 2, "eth0"), ("10.1.1.254", 3, "r-eth9")]).forwarding_table
      = lookupAL "10.1.1.254" (initialize_routing [("r-eth1", "10.1.1.254")]).forwarding_table :=
  c7_local_routes_immutable [("r-eth1", "10.1.1.254")]
    [("10.0.0.5", 2, "eth0"), ("10.1.1.254", 3, "r-eth9")] "r-eth1" "10.1.1.254" rfl

/-- Claim C8: after initialization and any number of merges, the
forwarding-table entry of every known destination is exactly the selected
interface (the interface achieving the minimum recorded distance) of its
routing-table entry. -/
theorem c8_forwarding_consistency (ifaces : List (String × String))
    (adverts : List (String × Nat × String)) (d : String) (e : RouteEntry)
    (h : lookupAL d (run (initialize_routing ifaces) adverts).routing_table = some e) :
    lookupAL d (run (initialize_routing ifaces) adverts).forwarding_table
      = selectedInterface e := by
  obtain ⟨i, n, he, hf⟩ := goodTables_run _ adverts (goodTables_init ifaces) d e h
  subst he
  rw [hf, selectedInterface_singleton]

/-- Witness for C8 at a concrete run with one learned destination. -/
theorem c8_forwarding_consistency_witness :
    lookupAL "10.0.0.5" (run (initialize_routing [("r-eth1", "10.1.1.254")])
        [("10.0.0.5", 2, "eth0")]).forwarding_table
      = selectedInterface [("eth0", 3)] :=
  c8_forwarding_consistency [("r-eth1", "10.1.1.254")] [("10.0.0.5", 2, "eth0")]
    "10.0.0.5" [("eth0", 3)] rfl

/-- Claim C9: once `(i, recordedDist)` is recorded for destination `d`, any
advertisement for `d` on `i` with advertised distance `≥ recordedDist` is
rejected by the loop-suppression early return: the state is returned
untouched and `changed = false`. -/
theorem c9_stale_advert_noop (s : RouterState) (d i : String)
    (recordedDist dist : Nat)
    (hrec : lookupAL i ((lookupAL d s.routing_table).getD []) = some recordedDist)
    (hstale : recordedDist ≤ dist) :
    update_routing_table s d dist i = (s, false) :=
  update_suppressed_eq s d dist i recordedDist hrec (hstale.trans (Nat.le_succ dist))

/-- Witness for C9: re-advertising `10.0.0.5` on `eth0` at distance 5 after
distance 3 was recorded there changes nothing. -/
theorem c9_stale_advert_noop_witness :
    update_routing_table (run (initialize_routing []) [("10.0.0.5", 2, "eth0")])
        "10.0.0.5" 5 "eth0"
      = (run (initialize_routing []) [("10.0.0.5", 2, "eth0")], false) :=
  c9_stale_advert_noop (run (initialize_routing []) [("10.0.0.5", 2, "eth0")])
    "10.0.0.5" "eth0" 3 5 rfl (by decide)

/-- Claim C10: every known destination's routing-table entry is a singleton
map — `initialize_routing` writes singletons and `update_routing_table`
replaces the whole entry with a singleton — so the effective distance is the
single recorded distance and the selected interface is the single recorded
interface (no equal-cost ties can arise). -/
theorem c10_entries_singleton (ifaces : List (String × String))
    (adverts : List (String × Nat × String)) (d : String) (e : RouteEntry)
    (h : lookupAL d (run (initialize_routing ifaces) adverts).routing_table = some e) :
    ∃ i n, e = [(i, n)] ∧ minValues e = n ∧ selectedInterface e = some i := by
  obtain ⟨i, n, he, _⟩ := goodTables_run _ adverts (goodTables_init ifaces) d e h
  subst he
  exact ⟨i, n, rfl, rfl, selectedInterface_singleton i n⟩

/-- Witness for C10 at a concrete run with one learned destination. -/
theorem c10_entries_singleton_witness :
    ∃ i n, ([("eth0", 3)] : RouteEntry) = [(i, n)] ∧
      minValues [("eth0", 3)] = n ∧ selectedInterface [("eth0", 3)] = some i :=
  c10_entries_singleton [] [("10.0.0.5", 2, "eth0")] "10.0.0.5" [("eth0", 3)] rfl

/-- Claim C4: full characterisation of the merge decision for a candidate
distance below the infinity sentinel.  The merge records the candidate and
flips the forwarding entry exactly when the destination is unknown or the
candidate beats the current effective distance with the loop-suppression
test not firing; in every other case it returns the state untouched with
`changed = false`. -/
theorem c4_merge_decision (s : RouterState) (d : String) (dist : Nat) (r : String)
    (_hbound : dist + 1 < infinitySentinel) :
    ((lookupAL d s.routing_table = none ∨
        (dist + 1 < minValues ((lookupAL d s.routing_table).getD [])
          ∧ ¬ Suppresses s d dist r)) →
      update_routing_table s d dist r =
        ({ s with routing_table := setAL d [(r, dist + 1)] s.routing_table,
                  forwarding_table := setAL d r s.forwarding_table }, true)) ∧
    (¬ (lookupAL d s.routing_table = none ∨
        (dist + 1 < minValues ((lookupAL d s.routing_table).getD [])
          ∧ ¬ Suppresses s d dist r)) →
      update_routing_table s d dist r = (s, false)) := by
  constructor
  · rintro (hc | ⟨himp, hnsup⟩)
    · refine update_improve_eq s d dist r ?_ (Or.inl hc)
      intro dr hdr
      rw [hc] at hdr
      simp [lookupAL] at hdr
    · refine update_improve_eq s d dist r ?_ (Or.inr himp)
      intro dr hdr
      by_contra hle
      exact hnsup ⟨dr, hdr, Nat.le_of_not_lt hle⟩
  · intro hnc
    push_neg at hnc
    obtain ⟨hknown, himp⟩ := hnc
    by_cases hsup : Suppresses s d dist r
    · obtain ⟨dr, hdr, hle⟩ := hsup
      exact update_suppressed_eq s d dist r dr hdr hle
    · obtain ⟨e, he⟩ := Option.ne_none_iff_exists'.mp hknown
      have hni : ¬ dist + 1 < minValues e := by
        intro hlt
        refine hsup (himp ?_)
        rw [he]
        exact hlt
      refine update_noimprove_eq s d dist r e ?_ he hni
      intro dr hdr
      by_contra hle
      exact hsup ⟨dr, hdr, Nat.le_of_not_lt hle⟩

/-- Witness for C4: learning the unknown destination `10.0.0.5` at advertised
distance 2 records candidate 3 and reports a change. -/
theorem c4_merge_decision_witness :
    update_routing_table (initialize_routing []) "10.0.0.5" 2 "eth0" =
      ({ initialize_routing [] with
          routing_table :=
            setAL "10.0.0.5" [("eth0", 2 + 1)] (initialize_routing []).routing_table,
          forwarding_table :=
            setAL "10.0.0.5" "eth0" (initialize_routing []).forwarding_table },
        true) :=
  (c4_merge_decision (initialize_routing []) "10.0.0.5" 2 "eth0" (by decide)).1
    (Or.inl rfl)

/-- Claim C5, amended (replacement, not pointwise update): when the merge
reports a change, the destination's whole `RouteEntry` becomes the singleton
`(receivedOnInterface, candidate)` — any distance previously recorded for a
different interface of that destination is discarded — while both tables'
entries for every other destination are untouched. -/
theorem c5_amended_entry_replaced (s : RouterState) (d : String) (dist : Nat)
    (r : String) (s₁ : RouterState)
    (h : update_routing_table s d dist r = (s₁, true)) :
    lookupAL d s₁.routing_table = some [(r, dist + 1)] ∧
    lookupAL d s₁.forwarding_table = some r ∧
    ∀ d₁, d₁ ≠ d →
      lookupAL d₁ s₁.routing_table = lookupAL d₁ s.routing_table ∧
      lookupAL d₁ s₁.forwarding_table = lookupAL d₁ s.forwarding_table := by
  have hs := update_snd_true s d dist r s₁ h
  subst hs
  refine ⟨lookupAL_setAL_self d [(r, dist + 1)] s.routing_table,
          lookupAL_setAL_self d r s.forwarding_table, ?_⟩
  intro d₁ hd
  exact ⟨lookupAL_setAL_ne d₁ d [(r, dist + 1)] s.routing_table hd,
         lookupAL_setAL_ne d₁ d r s.forwarding_table hd⟩

/-- Counterexample for C5 as stated: after `10.0.0.5` is known via `eth0` at
distance 3, the improving advertisement on `eth1` reports a change, but the
previously recorded distance for `eth0` is gone from the destination's entry
rather than remaining unchanged. -/
theorem c5_counterexample_other_interface_dropped :
    (update_routing_table (run (initialize_routing []) [("10.0.0.5", 2, "eth0")])
        "10.0.0.5" 1 "eth1").2 = true ∧
    lookupAL "eth0" ((lookupAL "10.0.0.5"
        (run (initialize_routing []) [("10.0.0.5", 2, "eth0")]).routing_table).getD [])
      = some 3 ∧
    lookupAL "eth0" ((lookupAL "10.0.0.5"
        (update_routing_table (run (initialize_routing []) [("10.0.0.5", 2, "eth0")])
            "10.0.0.5" 1 "eth1").1.routing_table).getD [])
      = none :=
  ⟨rfl, rfl, rfl⟩

/-- Witness for the amended C5 at the same concrete improvement, checking the
replaced entry, the flipped forwarding entry, and one untouched other key. -/
theorem c5_amended_entry_replaced_witness :
    lookupAL "10.0.0.5"
        (RouterState.mk [("10.0.0.5", [("eth1", 2)])] [("10.0.0.5", "eth1")] []).routing_table
      = some [("eth1", 1 + 1)] ∧
    lookupAL "10.0.0.5"
        (RouterState.mk [("10.0.0.5", [("eth1", 2)])] [("10.0.0.5", "eth1")] []).forwarding_table
      = some "eth1" ∧
    lookupAL "10.9.9.9"
        (RouterState.mk [("10.0.0.5", [("eth1", 2)])] [("10.0.0.5", "eth1")] []).routing_table
      = lookupAL "10.9.9.9"
          (run (initialize_routing []) [("10.0.0.5", 2, "eth0")]).routing_table :=
  have h := c5_amended_entry_replaced
    (run (initialize_routing []) [("10.0.0.5", 2, "eth0")]) "10.0.0.5" 1 "eth1"
    (RouterState.mk [("10.0.0.5", [("eth1", 2)])] [("10.0.0.5", "eth1")] []) rfl
  ⟨h.1, h.2.1, (h.2.2 "10.9.9.9" (by decide)).1⟩

/-! ### Forwarding-decision lemmas -/

theorem forward_packet_spec (s : RouterState) (pkt : Option IPPacket)
    (send_ok : Bool) :
    (forward_packet s pkt send_ok).2 = s ∧
    ∀ i t, ((forward_packet s pkt send_ok).1 = ForwardResult.sent i t ∨
            (forward_packet s pkt send_ok).1 = ForwardResult.sendError i t) →
      ∃ p, pkt = some p ∧ t = { p with dst := none } := by
  rcases pkt with _ | p
  · refine ⟨rfl, ?_⟩
    rintro i t (h | h) <;> simp [forward_packet] at h
  · rcases hdst : p.dst with _ | dest
    · refine ⟨by simp [forward_packet, hdst], ?_⟩
      rintro i t (h | h) <;> simp [forward_packet, hdst] at h
    · by_cases hloc : (s.local_interfaces.any fun q => q.2 == dest) = true
      · refine ⟨by simp [forward_packet, hdst, hloc], ?_⟩
        rintro i t (h | h) <;> simp [forward_packet, hdst, hloc] at h
      · rcases hroute : lookupAL dest s.routing_table with _ | route
        · refine ⟨by simp [forward_packet, hdst, hloc, hroute], ?_⟩
          rintro i t (h | h) <;> simp [forward_packet, hdst, hloc, hroute] at h
        · by_cases hne : route.isEmpty = true
          · refine ⟨by simp [forward_packet, hdst, hloc, hroute, hne], ?_⟩
            rintro i t (h | h) <;> simp [forward_packet, hdst, hloc, hroute, hne] at h
          · rcases hfwd : lookupAL dest s.forwarding_table with _ | out_iface
            · refine ⟨by simp [forward_packet, hdst, hloc, hroute, hne, hfwd], ?_⟩
              rintro i t (h | h) <;>
                simp [forward_packet, hdst, hloc, hroute, hne, hfwd] at h
            · by_cases hif : out_iface = ""
              · refine ⟨by simp [forward_packet, hdst, hloc, hroute, hne, hfwd, hif], ?_⟩
                rintro i t (h | h) <;>
                  simp [forward_packet, hdst, hloc, hroute, hne, hfwd, hif] at h
              · have hcomp : forward_packet s (some p) send_ok =
                    ((if send_ok then
                        ForwardResult.sent out_iface { p with dst := none }
                      else
                        ForwardResult.sendError out_iface { p with dst := none }), s) := by
                  cases send_ok <;>
                    simp [forward_packet, hdst, hloc, hroute, hne, hfwd, hif]
                cases send_ok
                · refine ⟨by rw [hcomp], ?_⟩
                  rintro i t (h | h) <;> rw [hcomp] at h <;> simp at h
                  exact ⟨p, rfl, h.2.symm⟩
                · refine ⟨by rw [hcomp], ?_⟩
                  rintro i t (h | h) <;> rw [hcomp] at h <;> simp at h
                  exact ⟨p, rfl, h.2.symm⟩

/-- Claim C6, amended (destination field cleared, no table mutation): when the
forwarding decision transmits — successfully or with a reported send failure —
the transmitted frame is the input packet with its IP destination field set
to `none` (the code's `pkt[IP].dst = None` before `sendp`; the rest of the
packet, its payload included, is unchanged), and the routing and forwarding
tables are not mutated in either outcome. -/
theorem c6_amended_transmit_clears_destination (s : RouterState)
    (pkt : Option IPPacket) (send_ok : Bool) (i : String) (t : IPPacket)
    (h : (forward_packet s pkt send_ok).1 = ForwardResult.sent i t ∨
         (forward_packet s pkt send_ok).1 = ForwardResult.sendError i t) :
    (forward_packet s pkt send_ok).2 = s ∧
    ∃ p, pkt = some p ∧ t = { p with dst := none } ∧ t.payload = p.payload := by
  obtain ⟨p, hp, ht⟩ := (forward_packet_spec s pkt send_ok).2 i t h
  exact ⟨(forward_packet_spec s pkt send_ok).1, p, hp, ht, by rw [ht]⟩

/-- Counterexample for C6 as stated: the frame actually handed to `sendp` is
not the unchanged payload — its IP destination field has been overwritten
with `None` (src/routing.py line 110), so the transmitted packet differs from
the packet that arrived. -/
theorem c6_counterexample_packet_mutated :
    (forward_packet (run (initialize_routing []) [("10.0.0.5", 2, "eth0")])
        (some { dst := some "10.0.0.5", payload := 99 }) true).1
      = ForwardResult.sent "eth0" { dst := none, payload := 99 } ∧
    ({ dst := none, payload := 99 } : IPPacket)
      ≠ { dst := some "10.0.0.5", payload := 99 } :=
  ⟨rfl, by decide⟩

/-- Witness for the amended C6: a failing transmission of a packet for
`10.0.0.5` reports the cleared-destination frame and leaves the state as it
was. -/
theorem c6_amended_transmit_clears_destination_witness :
    (forward_packet (run (initialize_routing []) [("10.0.0.5", 2, "eth0")])
        (some { dst := some "10.0.0.5", payload := 55 }) false).2
      = run (initialize_routing []) [("10.0.0.5", 2, "eth0")] ∧
    ∃ p, (some { dst := some "10.0.0.5", payload := 55 } : Option IPPacket) = some p ∧
      ({ dst := none, payload := 55 } : IPPacket) = { p with dst := none } ∧
      ({ dst := none, payload := 55 } : IPPacket).payload = p.payload :=
  c6_amended_transmit_clears_destination
    (run (initialize_routing []) [("10.0.0.5", 2, "eth0")])
    (some { dst := some "10.0.0.5", payload := 55 }) false "eth0"
    { dst := none, payload := 55 } (Or.inr rfl)

/-- Claim C3, amended (no ingress check exists): the forwarding decision never
consults the interface the packet arrived on — `forward_packet` receives no
ingress parameter — so whenever a route and a selected egress exist, the
packet is transmitted out that egress even when it equals the ingress
interface; no anomaly is detected and the packet is not dropped. -/
theorem c3_amended_no_ingress_check (s : RouterState) (p : IPPacket)
    (dest_ip out_iface ingress : String) (route : RouteEntry) (send_ok : Bool)
    (hdst : p.dst = some dest_ip)
    (hlocal : s.local_interfaces.any (fun q => q.2 == dest_ip) = false)
    (hroute : lookupAL dest_ip s.routing_table = some route)
    (hne : route.isEmpty = false)
    (hfwd : lookupAL dest_ip s.forwarding_table = some out_iface)
    (hiface : out_iface ≠ "")
    (_hanomaly : ingress = out_iface) :
    (forward_packet s (some p) send_ok).1 =
      (if send_ok then ForwardResult.sent out_iface { p with dst := none }
       else ForwardResult.sendError out_iface { p with dst := none }) := by
  cases send_ok <;>
    simp [forward_packet, hdst, hlocal, hroute, hne, hfwd, hiface]

/-- Counterexample for C3 as stated: `eth1` is the selected egress for
`10.0.0.5`, and a packet for `10.0.0.5` that (per the claim's scenario)
arrived on that very interface `eth1` is transmitted back out `eth1` — the
decision is a send, not a RoutingAnomaly drop, because the code never looks
at the ingress interface. -/
theorem c3_counterexample_forwarded_out_ingress :
    lookupAL "10.0.0.5"
        (run (initialize_routing []) [("10.0.0.5", 2, "eth1")]).forwarding_table
      = some "eth1" ∧
    (forward_packet (run (initialize_routing []) [("10.0.0.5", 2, "eth1")])
        (some { dst := some "10.0.0.5", payload := 7 }) true).1
      = ForwardResult.sent "eth1" { dst := none, payload := 7 } :=
  ⟨rfl, rfl⟩

/-- Witness for the amended C3: with `ingress = out_iface = "eth1"`, the
decision is still a transmission out `eth1`. -/
theorem c3_amended_no_ingress_check_witness :
    (forward_packet (run (initialize_routing []) [("10.0.0.5", 2, "eth1")])
        (some { dst := some "10.0.0.5", payload := 11 }) true).1
      = (if true then
           ForwardResult.sent "eth1"
             { ({ dst := some "10.0.0.5", payload := 11 } : IPPacket) with dst := none }
         else
           ForwardResult.sendError "eth1"
             { ({ dst := some "10.0.0.5", payload := 11 } : IPPacket) with dst := none }) :=
  c3_amended_no_ingress_check
    (run (initialize_routing []) [("10.0.0.5", 2, "eth1")])
    { dst := some "10.0.0.5", payload := 11 } "10.0.0.5" "eth1" "eth1"
    [("eth1", 3)] true rfl rfl rfl rfl rfl (by decide) rfl

end DVRouting
